import Mathlib

/-!
Shallow embedding of the tool protocol gateway of the
root-cause-analysis-supply-chain repository: the MCP SSE client
(`src/rca_app/mcp_client.py`) and the toolset registry
(`src/rca_app/toolset_registry.py`).

JSON values are modelled by a mutual inductive (`Json`, `JsonArr`,
`JsonObj`); Python dicts preserve insertion order, so `JsonObj` is an
ordered field list.  Stateful methods of `McpSseClient` become explicit
state passing over `ClientState`; the background SSE listener thread is
modelled by the list of events it delivers while a caller waits.
Python exceptions become `Except PyErr`.
-/

mutual

inductive Json where
  | null
  | bool (b : Bool)
  | num (n : Int)
  | str (s : String)
  | arr (xs : JsonArr)
  | obj (fields : JsonObj)
deriving DecidableEq, Repr

inductive JsonArr where
  | nil
  | cons (hd : Json) (tl : JsonArr)
deriving DecidableEq, Repr

inductive JsonObj where
  | nil
  | cons (key : String) (val : Json) (tl : JsonObj)
deriving DecidableEq, Repr

end

/-- `dict.get(k)` on a JSON object: first field with the given key (Python
dicts have unique keys, so first = only). -/
def jlookup (fs : JsonObj) (k : String) : Option Json :=
  match fs with
  | .nil => none
  | .cons key v tl => if key = k then some v else jlookup tl k

def JsonArr.toList : JsonArr → List Json
  | .nil => []
  | .cons h t => h :: t.toList

def JsonObj.toList : JsonObj → List (String × Json)
  | .nil => []
  | .cons k v t => (k, v) :: t.toList

/-- Python truthiness of a JSON value (`if payload.get("url"):` etc.). -/
def Json.truthy : Json → Bool
  | .null => false
  | .bool b => b
  | .num n => decide (n ≠ 0)
  | .str s => decide (s ≠ "")
  | .arr .nil => false
  | .arr (.cons _ _) => true
  | .obj .nil => false
  | .obj (.cons _ _ _) => true

/-- A single-quote character, used by Python `repr`. -/
def pyQuote : String := (Char.ofNat 39).toString

mutual

/-- Python `repr` of a JSON value (string escaping omitted; no claim
exercises it). -/
def pyRepr : Json → String
  | .null => "None"
  | .bool true => "True"
  | .bool false => "False"
  | .num n => toString n
  | .str s => pyQuote ++ s ++ pyQuote
  | .arr xs => "[" ++ pyReprArr xs ++ "]"
  | .obj fs => "\x7b" ++ pyReprObj fs ++ "\x7d"

def pyReprArr : JsonArr → String
  | .nil => ""
  | .cons h .nil => pyRepr h
  | .cons h t => pyRepr h ++ ", " ++ pyReprArr t

def pyReprObj : JsonObj → String
  | .nil => ""
  | .cons k v .nil => pyQuote ++ k ++ pyQuote ++ ": " ++ pyRepr v
  | .cons k v t => pyQuote ++ k ++ pyQuote ++ ": " ++ pyRepr v ++ ", " ++ pyReprObj t

end

/-- Python `str()` of a JSON value, as used by f-string interpolation. -/
def pyStrOf (j : Json) : String :=
  match j with
  | .str s => s
  | _ => pyRepr j

/-- Python `str.rstrip("/")`. -/
def rstripSlashes (s : String) : String :=
  String.mk ((s.data.reverse.dropWhile (fun c => c = '/')).reverse)

/-- Association-list lookup, modelling Python `dict` access (`m[k]`,
`m.get(k)`); first match wins, and all dict values built below keep their
keys unique. -/
def alistLookup [DecidableEq κ] : List (κ × α) → κ → Option α
  | [], _ => none
  | (k1, v) :: rest, k => if k1 = k then some v else alistLookup rest k

/-- Python `dict` assignment `m[k] = v`: replace in place if the key
exists, else append (insertion order preserved). -/
def dictInsert [DecidableEq κ] : List (κ × α) → κ → α → List (κ × α)
  | [], k, v => [(k, v)]
  | (k1, v1) :: rest, k, v =>
    if k1 = k then (k, v) :: rest else (k1, v1) :: dictInsert rest k v

/-- Python `dict.pop(k, None)`: drop the entry with the given key. -/
def dictRemove [DecidableEq κ] : List (κ × α) → κ → List (κ × α)
  | [], _ => []
  | (k1, v1) :: rest, k =>
    if k1 = k then rest else (k1, v1) :: dictRemove rest k

def alistKeys (m : List (κ × α)) : List κ := m.map Prod.fst

deriving instance DecidableEq for Except

/-- Python exceptions raised by the gateway code. -/
inductive PyErr where
  | timeoutError (msg : String)
  | runtimeError (msg : Json)
  | attributeError
  | typeError
  | valueError (msg : String)
  | keyError (msg : String)
deriving DecidableEq, Repr

namespace mcp_client

/-- Semantic argument types of the translated call contract: the Python
types `str`, `int`, `float`, `bool`, `list`, `dict` and `typing.Any`
("unspecified"). -/
inductive PyType where
  | str
  | int
  | float
  | bool
  | list
  | dict
  | any
deriving DecidableEq, Repr

/-- Default of a generated pydantic field: `...` (Ellipsis, required) or
`None` (optional). -/
inductive FieldDefault where
  | required
  | noneDefault
deriving DecidableEq, Repr

/-- Whether the Python value of a JSON term is hashable: lists and dicts
(JSON arrays and objects) are not, everything else is. -/
def jsonHashable : Json → Bool
  | .arr _ => false
  | .obj _ => false
  | _ => true

/-- The inline type-mapping dict of `_schema_to_pydantic`:
`{"string": str, ..., "object": dict}.get(t, Any)`.  `dict.get` hashes
its key first, so an unhashable (array- or object-valued) type
declaration raises TypeError; any other value is looked up by equality,
with `Any` when no key matches. -/
def type_map_get (t : Json) : Except PyErr PyType :=
  match t with
  | .arr _ => .error .typeError
  | .obj _ => .error .typeError
  | _ =>
    if t = .str "string" then .ok PyType.str
    else if t = .str "integer" then .ok PyType.int
    else if t = .str "number" then .ok PyType.float
    else if t = .str "boolean" then .ok PyType.bool
    else if t = .str "array" then .ok PyType.list
    else if t = .str "object" then .ok PyType.dict
    else .ok PyType.any

/-- Python `set(x)` over a JSON value, keeping only what membership needs
(the element list): lists iterate elements, but an unhashable (list or
dict) element raises TypeError; strings iterate characters, dicts
iterate their (string) keys, and non-iterables raise TypeError. -/
def pySetOfJson : Json → Except PyErr (List Json)
  | .arr xs =>
    if xs.toList.all jsonHashable then .ok xs.toList else .error .typeError
  | .str s => .ok (s.data.map (fun c => Json.str c.toString))
  | .obj fs => .ok (fs.toList.map (fun kv => Json.str kv.1))
  | _ => .error .typeError

/-- The per-property loop body of `_schema_to_pydantic`, in `properties`
iteration order: each property yields `(name, field type, default)`,
where the default is `...` for required names and `None` otherwise; a
TypeError from the type-map lookup aborts the loop. -/
def fields_of_properties (pfs : JsonObj) (required : List Json) :
    Except PyErr (List (String × PyType × FieldDefault)) :=
  match pfs with
  | .nil => .ok []
  | .cons prop_name prop_schema tl =>
    match prop_schema with
    | .obj psf =>
      match type_map_get ((jlookup psf "type").getD (.str "string")) with
      | .error e => .error e
      | .ok field_type =>
        let dflt := if (Json.str prop_name) ∈ required then FieldDefault.required
                    else FieldDefault.noneDefault
        match fields_of_properties tl required with
        | .ok rest => .ok ((prop_name, field_type, dflt) :: rest)
        | .error e => .error e
    | _ => .error .attributeError

/-- `_schema_to_pydantic(name, schema)` reduced to its observable contract:
the ordered `(field name, field type, default)` list handed to
`create_model`.  Mirrors the source: `properties = schema.get("properties",
\x7b\x7d)`, `required = set(schema.get("required", []))`, then the property
loop. -/
def schema_to_pydantic (schema : Json) : Except PyErr (List (String × PyType × FieldDefault)) :=
  match schema with
  | .obj sfs =>
    let properties := (jlookup sfs "properties").getD (.obj .nil)
    match pySetOfJson ((jlookup sfs "required").getD (.arr .nil)) with
    | .error e => .error e
    | .ok required =>
      match properties with
      | .obj pfs => fields_of_properties pfs required
      | _ => .error .attributeError
  | _ => .error .attributeError

/-- The mutable state of an `McpSseClient`: the four stateful attributes,
plus a trace `sent` of every `(url, payload)` POSTed by `_post_message`
(the observable network sends). -/
structure ClientState where
  base_url : String
  messages_url : Json
  responses : List (Json × Json)
  initDone : Bool
  sent : List (String × Json)
deriving DecidableEq, Repr

/-- `McpSseClient.__init__(base_url)`: strips trailing slashes, side
channel defaults to "/messages", no responses, `_initialized = False`. -/
def mkClient (base_url : String) : ClientState :=
  { base_url := rstripSlashes base_url
    messages_url := .str "/messages"
    responses := []
    initDone := false
    sent := [] }

/-- `McpSseClient._handle_event` after JSON decoding: an event with a
truthy `url` field updates the side-channel path; otherwise an event with
a truthy `id` is stored into `_responses` under that id; events without a
truthy id are ignored.  A non-mapping payload raises AttributeError at
`payload.get` (which kills the listener loop). -/
def handle_payload (st : ClientState) (payload : Json) : Except PyErr ClientState :=
  match payload with
  | .obj fields =>
    if ((jlookup fields "url").getD .null).truthy then
      .ok { st with messages_url := (jlookup fields "url").getD .null }
    else
      let message_id := (jlookup fields "id").getD .null
      if message_id.truthy then
        .ok { st with responses := dictInsert st.responses message_id payload }
      else
        .ok st
  | _ => .error .attributeError

/-- `McpSseClient._handle_event(data)`: `none` stands for a body that
failed `json.loads` (logged and skipped); otherwise dispatch the parsed
payload. -/
def handle_event (st : ClientState) (data : Option Json) : Except PyErr ClientState :=
  match data with
  | none => .ok st
  | some payload => handle_payload st payload

/-- The SSE listener delivering a sequence of (already line-assembled)
events: an exception inside `_handle_event` aborts the listener loop, so
later events are never processed. -/
def run_listener (st : ClientState) (events : List (Option Json)) : ClientState :=
  match events with
  | [] => st
  | e :: rest =>
    match handle_event st e with
    | .ok st1 => run_listener st1 rest
    | .error _ => st

/-- `McpSseClient._post_message(payload)`: POST to
`f"\x7bself.base_url\x7d\x7bself._messages_url\x7d"`; recorded in the
`sent` trace.  (HTTP-level failure is a property of the remote server,
outside this model.) -/
def post_message (st : ClientState) (payload : Json) : ClientState :=
  { st with sent := st.sent ++ [(st.base_url ++ pyStrOf st.messages_url, payload)] }

/-- The JSON-RPC request envelope built by `McpSseClient.request`. -/
def mkEnvelope (request_id : String) (method : String) (params : Json) : Json :=
  .obj (.cons "jsonrpc" (.str "2.0")
    (.cons "id" (.str request_id)
      (.cons "method" (.str method)
        (.cons "params" params .nil))))

/-- Python `params or \x7b\x7d`. -/
def orEmptyParams (params : Option Json) : Json :=
  match params with
  | some p => if p.truthy then p else .obj .nil
  | none => .obj .nil

/-- `McpSseClient.request(method, params)`: build and POST the envelope
with a fresh `request_id`, wait up to 30 s for `_responses` to contain the
id (`events` are what the listener delivers during that wait), then pop
the entry.  No entry: TimeoutError naming the method.  An `error` field:
RuntimeError with the server message.  Otherwise `response.get("result",
\x7b\x7d)`. -/
def request (st : ClientState) (method : String) (params : Option Json)
    (request_id : String) (events : List (Option Json)) :
    Except PyErr Json × ClientState :=
  let st1 := post_message st (mkEnvelope request_id method (orEmptyParams params))
  let st2 := run_listener st1 events
  match alistLookup st2.responses (.str request_id) with
  | none => (.error (.timeoutError ("Timed out waiting for MCP response to " ++ method)), st2)
  | some response =>
    let st3 := { st2 with responses := dictRemove st2.responses (.str request_id) }
    match response with
    | .obj rfs =>
      match jlookup rfs "error" with
      | some (.obj efs) =>
        (.error (.runtimeError ((jlookup efs "message").getD (.str "Unknown MCP error"))), st3)
      | some _ => (.error .attributeError, st3)
      | none => (.ok ((jlookup rfs "result").getD (.obj .nil)), st3)
    | _ => (.error .attributeError, st3)

/-- The `if not self._initialized` prologue of `list_tools`: send
`initialize` and set the flag only after the request returns. -/
def init_step (st : ClientState) (initId : String) (initEvents : List (Option Json)) :
    Except PyErr Unit × ClientState :=
  if st.initDone then (.ok (), st)
  else
    match request st "initialize" none initId initEvents with
    | (.ok _, st1) => (.ok (), { st1 with initDone := true })
    | (.error e, st1) => (.error e, st1)

/-- `McpSseClient.list_tools()`: the initialization prologue, then one
`tools/list` request, returning `result.get("tools", [])`. -/
def list_tools (st : ClientState) (initId : String) (initEvents : List (Option Json))
    (listId : String) (listEvents : List (Option Json)) :
    Except PyErr Json × ClientState :=
  match init_step st initId initEvents with
  | (.error e, st1) => (.error e, st1)
  | (.ok _, st1) =>
    match request st1 "tools/list" none listId listEvents with
    | (.error e, st2) => (.error e, st2)
    | (.ok result, st2) =>
      match result with
      | .obj rfs => (.ok ((jlookup rfs "tools").getD (.arr .nil)), st2)
      | _ => (.error .attributeError, st2)

/-- `McpSseClient.call_tool(name, arguments)`: one `tools/call` request,
then unwrap: a non-empty content list whose first element is a mapping
with a string `text` tries `json.loads` (modelled by the `json_loads`
parameter), falling back to the raw text; otherwise the raw result object.
`content[0].get` on a non-mapping first element raises AttributeError, as
does `result.get` on a non-mapping result. -/
def call_tool (st : ClientState) (name : String) (arguments : Json)
    (request_id : String) (events : List (Option Json))
    (json_loads : String → Option Json) :
    Except PyErr Json × ClientState :=
  match request st "tools/call"
      (some (.obj (.cons "name" (.str name) (.cons "arguments" arguments .nil))))
      request_id events with
  | (.error e, st1) => (.error e, st1)
  | (.ok result, st1) =>
    match result with
    | .obj rfs =>
      match (jlookup rfs "content").getD (.arr .nil) with
      | .arr (.cons first _) =>
        match first with
        | .obj ffs =>
          match jlookup ffs "text" with
          | some (.str text) =>
            match json_loads text with
            | some v => (.ok v, st1)
            | none => (.ok (.str text), st1)
          | _ => (.ok result, st1)
        | _ => (.error .attributeError, st1)
      | _ => (.ok result, st1)
    | _ => (.error .attributeError, st1)

/-- The observable shape of a `StructuredTool` built by
`build_mcp_toolset`: its name, description, and the argument contract
produced by `_schema_to_pydantic`. -/
structure StructuredToolModel where
  name : Json
  description : Json
  args_fields : List (String × PyType × FieldDefault)
deriving DecidableEq, Repr

/-- The per-descriptor body of `build_mcp_toolset`'s loop:
`tool_def.get("name", "unknown")`, `tool_def.get("description", "")`,
`tool_def.get("inputSchema") or \x7b"type": "object", "properties": \x7b\x7d\x7d`,
then `_schema_to_pydantic`. -/
def build_tool (tool_def : Json) : Except PyErr StructuredToolModel :=
  match tool_def with
  | .obj fs =>
    let tool_name := (jlookup fs "name").getD (.str "unknown")
    let description := (jlookup fs "description").getD (.str "")
    let raw_schema := (jlookup fs "inputSchema").getD .null
    let input_schema :=
      if raw_schema.truthy then raw_schema
      else .obj (.cons "type" (.str "object") (.cons "properties" (.obj .nil) .nil))
    match schema_to_pydantic input_schema with
    | .ok flds => .ok { name := tool_name, description := description, args_fields := flds }
    | .error e => .error e
  | _ => .error .attributeError

/-- The full loop of `build_mcp_toolset` over the discovered descriptor
list. -/
def build_tool_list (tool_defs : List Json) : Except PyErr (List StructuredToolModel) :=
  match tool_defs with
  | [] => .ok []
  | d :: rest =>
    match build_tool d with
    | .error e => .error e
    | .ok t =>
      match build_tool_list rest with
      | .error e => .error e
      | .ok ts => .ok (t :: ts)

end mcp_client

namespace toolset_registry

/-- A duck-typed tool object as the registry sees it: only
`getattr(tool, "name", None)` and object identity matter; `tag`
distinguishes distinct tool objects. -/
structure PyTool where
  name : Option String
  tag : Nat
deriving DecidableEq, Repr

/-- Warnings emitted through `logger.warning`, with their format
arguments. -/
inductive LogEvent where
  | overwriteTool (toolName tsName : String)
  | overwriteToolset (tsName : String)
  | toolCollision (toolName tsName : String)
deriving DecidableEq, Repr

/-- Python truthiness of `getattr(tool, "name", None)`. -/
def nameTruthy : Option String → Bool
  | some s => decide (s ≠ "")
  | none => false

/-- `Toolset._rebuild_lookup`: walk `self.tools`, keeping every tool with
a truthy name under that name (later tools replace earlier ones). -/
def rebuild_lookup (tools : List PyTool) : List (String × PyTool) :=
  tools.foldl
    (fun acc tool =>
      match tool.name with
      | some n => if n = "" then acc else dictInsert acc n tool
      | none => acc)
    []

/-- The `Toolset` dataclass of `toolset_registry.py`: name, ordered tool
list, description, and the derived `_tool_lookup` dict. -/
structure Toolset where
  name : String
  tools : List PyTool
  description : String
  tool_lookup : List (String × PyTool)
deriving DecidableEq, Repr

/-- `Toolset(name, tools, description)` followed by `__post_init__`. -/
def mkToolset (name : String) (tools : List PyTool) (description : String) : Toolset :=
  { name := name
    tools := tools
    description := description
    tool_lookup := rebuild_lookup tools }

/-- `Toolset.register_tool`: a tool without a truthy name raises
ValueError; a name already in the lookup logs an overwrite warning; the
tool is appended to `self.tools` and stored in the lookup. -/
def Toolset.register_tool (ts : Toolset) (tool : PyTool) :
    Except PyErr (Toolset × List LogEvent) :=
  match tool.name with
  | none => .error (.valueError "Tool must have a name to be registered.")
  | some n =>
    if n = "" then .error (.valueError "Tool must have a name to be registered.")
    else
      let warns :=
        if (alistLookup ts.tool_lookup n).isSome then [LogEvent.overwriteTool n ts.name]
        else []
      .ok ({ ts with tools := ts.tools ++ [tool],
                     tool_lookup := dictInsert ts.tool_lookup n tool }, warns)

/-- `Toolset.get_tool`: lookup by name, KeyError when absent. -/
def Toolset.get_tool (ts : Toolset) (tool_name : String) : Except PyErr PyTool :=
  match alistLookup ts.tool_lookup tool_name with
  | some t => .ok t
  | none =>
    .error (.keyError ("Tool " ++ pyQuote ++ tool_name ++ pyQuote ++
      " not found in toolset " ++ pyQuote ++ ts.name ++ pyQuote ++ "."))

/-- The `ToolsetRegistry` state: `_toolsets` (name → toolset) and
`_tools` (tool name → tool). -/
structure ToolsetRegistry where
  toolsets : List (String × Toolset)
  tools : List (String × PyTool)
deriving DecidableEq, Repr

/-- `ToolsetRegistry()` with no initial toolsets. -/
def ToolsetRegistry.empty : ToolsetRegistry := { toolsets := [], tools := [] }

/-- The `for tool_name, tool in toolset._tool_lookup.items()` loop of
`ToolsetRegistry.register`: warn on collision, then insert
(last registration wins). -/
def register_tools_loop (entries : List (String × PyTool)) (tsName : String)
    (m : List (String × PyTool)) : List (String × PyTool) × List LogEvent :=
  match entries with
  | [] => (m, [])
  | (n, t) :: rest =>
    let warn :=
      if (alistLookup m n).isSome then [LogEvent.toolCollision n tsName] else []
    let step := register_tools_loop rest tsName (dictInsert m n t)
    (step.1, warn ++ step.2)

/-- `ToolsetRegistry.register(toolset)`: warn if the toolset name is
taken, store the toolset, then fold its `_tool_lookup` into `_tools`. -/
def ToolsetRegistry.register (reg : ToolsetRegistry) (ts : Toolset) :
    ToolsetRegistry × List LogEvent :=
  let warn0 :=
    if (alistLookup reg.toolsets ts.name).isSome then [LogEvent.overwriteToolset ts.name]
    else []
  let step := register_tools_loop ts.tool_lookup ts.name reg.tools
  ({ toolsets := dictInsert reg.toolsets ts.name ts, tools := step.1 }, warn0 ++ step.2)

/-- `ToolsetRegistry.get_toolset`. -/
def ToolsetRegistry.get_toolset (reg : ToolsetRegistry) (name : String) :
    Except PyErr Toolset :=
  match alistLookup reg.toolsets name with
  | some ts => .ok ts
  | none =>
    .error (.keyError ("Toolset " ++ pyQuote ++ name ++ pyQuote ++ " not found."))

/-- `ToolsetRegistry.find_tool`: O(1) lookup in `_tools`, KeyError when
absent. -/
def ToolsetRegistry.find_tool (reg : ToolsetRegistry) (tool_name : String) :
    Except PyErr PyTool :=
  match alistLookup reg.tools tool_name with
  | some t => .ok t
  | none =>
    .error (.keyError ("Tool " ++ pyQuote ++ tool_name ++ pyQuote ++
      " not found in registered toolsets."))

/-- `ToolsetRegistry.all_tools`: values of `_tools` in insertion order. -/
def ToolsetRegistry.all_tools (reg : ToolsetRegistry) : List PyTool :=
  reg.tools.map Prod.snd

end toolset_registry


/-- The `method` field of a POSTed envelope, used to observe what a
client sent over the transport. -/
def envelopeMethod (payload : Json) : Option Json :=
  match payload with
  | .obj fs => jlookup fs "method"
  | _ => none

/-- How many POSTed envelopes in a `sent` trace carry the given JSON-RPC
method. -/
def countSends (sent : List (String × Json)) (method : String) : Nat :=
  (sent.filter (fun e => envelopeMethod e.2 == some (.str method))).length

/-! ## Shared helper lemmas about `request` -/

open mcp_client toolset_registry

theorem alistLookup_dictInsert_self [DecidableEq κ] (m : List (κ × α)) (k : κ) (v : α) :
    alistLookup (dictInsert m k v) k = some v := by
  induction m with
  | nil => simp [dictInsert, alistLookup]
  | cons hd tl ih =>
    obtain ⟨k1, v1⟩ := hd
    by_cases h : k1 = k
    · simp [dictInsert, alistLookup, h]
    · simp [dictInsert, alistLookup, h, ih]

theorem alistLookup_dictInsert_ne [DecidableEq κ] (m : List (κ × α)) (k k1 : κ) (v : α)
    (h : k1 ≠ k) : alistLookup (dictInsert m k1 v) k = alistLookup m k := by
  induction m with
  | nil => simp [dictInsert, alistLookup, h]
  | cons hd tl ih =>
    obtain ⟨k2, v2⟩ := hd
    by_cases h2 : k2 = k1
    · subst h2
      simp [dictInsert, alistLookup, h]
    · by_cases h3 : k2 = k
      · subst h3
        simp [dictInsert, alistLookup, h2]
      · simp [dictInsert, alistLookup, h2, h3, ih]

theorem mem_alistKeys_dictInsert [DecidableEq κ] (m : List (κ × α)) (k k1 : κ) (v : α)
    (h : k ∈ alistKeys m) : k ∈ alistKeys (dictInsert m k1 v) := by
  induction m with
  | nil => simp [alistKeys] at h
  | cons hd tl ih =>
    obtain ⟨k2, v2⟩ := hd
    by_cases h2 : k2 = k1
    · subst h2
      simp [alistKeys, dictInsert] at h ⊢
      rcases h with h | h
      · exact Or.inl (h.symm ▸ rfl)
      · exact Or.inr h
    · simp [alistKeys, dictInsert, h2] at h ⊢
      rcases h with h | h
      · exact Or.inl h
      · exact Or.inr (by simpa [alistKeys] using ih (by simpa [alistKeys] using h))

theorem alistKeys_dictInsert_of_mem [DecidableEq κ] (m : List (κ × α)) (k : κ) (v : α)
    (h : k ∈ alistKeys m) : alistKeys (dictInsert m k v) = alistKeys m := by
  induction m with
  | nil => simp [alistKeys] at h
  | cons hd tl ih =>
    obtain ⟨k2, v2⟩ := hd
    by_cases h2 : k2 = k
    · simp [alistKeys, dictInsert, h2]
    · simp [alistKeys, dictInsert, h2] at h ⊢
      rcases h with h | h
      · exact absurd h.symm h2
      · exact ih (by simpa [alistKeys] using h)

theorem alistKeys_dictInsert_of_not_mem [DecidableEq κ] (m : List (κ × α)) (k : κ) (v : α)
    (h : k ∉ alistKeys m) : alistKeys (dictInsert m k v) = alistKeys m ++ [k] := by
  induction m with
  | nil => simp [alistKeys, dictInsert]
  | cons hd tl ih =>
    obtain ⟨k2, v2⟩ := hd
    simp [alistKeys] at h
    push_neg at h
    simp [alistKeys, dictInsert, Ne.symm h.1]
    exact ih (by simpa [alistKeys] using h.2)

theorem nodup_alistKeys_dictInsert [DecidableEq κ] (m : List (κ × α)) (k : κ) (v : α)
    (h : (alistKeys m).Nodup) : (alistKeys (dictInsert m k v)).Nodup := by
  by_cases hm : k ∈ alistKeys m
  · rw [alistKeys_dictInsert_of_mem m k v hm]
    exact h
  · rw [alistKeys_dictInsert_of_not_mem m k v hm]
    simp [List.nodup_append, h, hm]

/-- When the listener delivers (within the wait window) exactly the
response envelope for the request's id, `request` returns its `result`
field; the envelope is POSTed and the response entry is popped. -/
theorem request_ok_delivered (st : ClientState) (method : String)
    (params : Option Json) (request_id : String) (R : Json) (hid : request_id ≠ "") :
    request st method params request_id
        [some (.obj (.cons "id" (.str request_id) (.cons "result" R .nil)))] =
      (.ok R,
       { st with
           responses := dictRemove
             (dictInsert st.responses (.str request_id)
               (.obj (.cons "id" (.str request_id) (.cons "result" R .nil))))
             (.str request_id)
           sent := st.sent ++ [(st.base_url ++ pyStrOf st.messages_url,
             mkEnvelope request_id method (orEmptyParams params))] }) := by
  simp [request, post_message, run_listener, handle_event, handle_payload, jlookup,
    Json.truthy, hid, alistLookup_dictInsert_self]

/-- When no response for the request's id is in `_responses` after the
wait, `request` fails with the TimeoutError naming the method; the
envelope was still POSTed. -/
theorem request_timeout_no_events (st : ClientState) (method : String)
    (params : Option Json) (request_id : String)
    (hnone : alistLookup st.responses (.str request_id) = none) :
    request st method params request_id [] =
      (.error (.timeoutError ("Timed out waiting for MCP response to " ++ method)),
       { st with sent := st.sent ++ [(st.base_url ++ pyStrOf st.messages_url,
           mkEnvelope request_id method (orEmptyParams params))] }) := by
  simp [request, post_message, run_listener, hnone]

/-! ## C5 — schema type mapping -/

/-- C5, counterexample: the claim says a missing type declaration maps to
"unspecified" (`Any`), but `_schema_to_pydantic` defaults a missing
`type` to `"string"` (`prop_schema.get("type", "string")`), so the
property `p` of schema `\x7b"properties": \x7b"p": \x7b\x7d\x7d\x7d` gets
field type `str`, not `Any`. -/
theorem C5_counterexample :
    schema_to_pydantic (.obj (.cons "properties" (.obj (.cons "p" (.obj .nil) .nil)) .nil)) =
      .ok [("p", PyType.str, FieldDefault.noneDefault)] ∧
    PyType.str ≠ PyType.any := by
  constructor
  · rfl
  · decide

/-- C5, amended: the schema translator maps declared property types
string→string, integer→integer, number→float, boolean→boolean,
array→sequence, object→mapping; any other HASHABLE (null, boolean,
number or string) type declaration maps to unspecified, while an array-
or object-valued type declaration raises TypeError (`dict.get` hashes
the key); a MISSING type declaration defaults to string; and for the
schema
`\x7b"properties": \x7b"a": \x7b"type": "string"\x7d, "b": \x7b"type": "integer"\x7d\x7d, "required": ["a"]\x7d`
the contract marks `a` required/string and `b` optional/integer. -/
theorem C5_type_mapping :
    type_map_get (.str "string") = .ok PyType.str ∧
    type_map_get (.str "integer") = .ok PyType.int ∧
    type_map_get (.str "number") = .ok PyType.float ∧
    type_map_get (.str "boolean") = .ok PyType.bool ∧
    type_map_get (.str "array") = .ok PyType.list ∧
    type_map_get (.str "object") = .ok PyType.dict ∧
    (∀ t : Json,
      (∀ xs : JsonArr, t ≠ .arr xs) → (∀ gs : JsonObj, t ≠ .obj gs) →
      t ≠ .str "string" → t ≠ .str "integer" → t ≠ .str "number" →
      t ≠ .str "boolean" → t ≠ .str "array" → t ≠ .str "object" →
      type_map_get t = .ok PyType.any) ∧
    (∀ xs : JsonArr, type_map_get (.arr xs) = .error .typeError) ∧
    (∀ gs : JsonObj, type_map_get (.obj gs) = .error .typeError) ∧
    (∀ (n : String) (ps : JsonObj), jlookup ps "type" = none →
      fields_of_properties (.cons n (.obj ps) .nil) [] =
        .ok [(n, PyType.str, FieldDefault.noneDefault)]) ∧
    schema_to_pydantic
        (.obj (.cons "properties"
           (.obj (.cons "a" (.obj (.cons "type" (.str "string") .nil))
             (.cons "b" (.obj (.cons "type" (.str "integer") .nil)) .nil)))
           (.cons "required" (.arr (.cons (.str "a") .nil)) .nil))) =
      .ok [("a", PyType.str, FieldDefault.required),
           ("b", PyType.int, FieldDefault.noneDefault)] := by
  refine ⟨rfl, rfl, rfl, rfl, rfl, rfl, ?_, fun xs => rfl, fun gs => rfl, ?_, by decide⟩
  · intro t harr hobj h1 h2 h3 h4 h5 h6
    cases t with
    | arr xs => exact absurd rfl (harr xs)
    | obj gs => exact absurd rfl (hobj gs)
    | null => simp [type_map_get]
    | bool b => simp [type_map_get]
    | num m => simp [type_map_get]
    | str s => simp [type_map_get, h1, h2, h3, h4, h5, h6]
  · intro n ps h
    simp [fields_of_properties, h, type_map_get]

/-- C5 witness: the unrecognized hashable declaration `true` maps to
unspecified, an array-valued declaration raises TypeError, and a
property with no type declaration maps to string. -/
theorem C5_witness :
    type_map_get (.bool true) = .ok PyType.any ∧
    type_map_get (.arr .nil) = .error .typeError ∧
    fields_of_properties (.cons "p" (.obj .nil) .nil) [] =
      .ok [("p", PyType.str, FieldDefault.noneDefault)] :=
  ⟨C5_type_mapping.2.2.2.2.2.2.1 (.bool true)
     (fun xs h => by cases h) (fun gs h => by cases h)
     (by decide) (by decide) (by decide) (by decide) (by decide) (by decide),
   C5_type_mapping.2.2.2.2.2.2.2.1 .nil,
   C5_type_mapping.2.2.2.2.2.2.2.2.2.1 "p" .nil rfl⟩

/-! ## C10 — build_mcp_toolset is total over incomplete descriptors -/

/-- C10: for every descriptor object whose `inputSchema` is missing or
null, `build_mcp_toolset`'s per-descriptor step succeeds (never raises),
treating the schema as an empty object schema (empty contract); a missing
`name` yields the tool name "unknown" and a missing `description` yields
the empty string. -/
theorem C10_build_tool_defaults (fs : JsonObj)
    (hschema : jlookup fs "inputSchema" = none ∨ jlookup fs "inputSchema" = some .null) :
    ∃ t : StructuredToolModel,
      build_tool (.obj fs) = .ok t ∧
      t.args_fields = [] ∧
      (jlookup fs "name" = none → t.name = .str "unknown") ∧
      (jlookup fs "description" = none → t.description = .str "") := by
  refine ⟨{ name := (jlookup fs "name").getD (.str "unknown"),
            description := (jlookup fs "description").getD (.str ""),
            args_fields := [] }, ?_, rfl, ?_, ?_⟩
  · rcases hschema with h | h <;>
      simp [build_tool, h, Json.truthy, schema_to_pydantic, jlookup, pySetOfJson,
        fields_of_properties, JsonArr.toList]
  · intro h
    simp [h]
  · intro h
    simp [h]

/-- C10 witness: the fully empty descriptor `\x7b\x7d` builds the tool
named "unknown" with empty description and empty contract. -/
theorem C10_witness :
    ∃ t : StructuredToolModel,
      build_tool (.obj .nil) = .ok t ∧
      t.args_fields = [] ∧
      (jlookup .nil "name" = none → t.name = .str "unknown") ∧
      (jlookup .nil "description" = none → t.description = .str "") :=
  C10_build_tool_defaults .nil (Or.inl rfl)

/-! ## C6 — call_tool result unwrapping -/

/-- C6: for every `tools/call` result delivered for the request id: if it
carries a content list whose first element is a mapping with a string
`text` payload, `call_tool` returns the JSON-parse of that text, or the
raw text when parsing fails; with an absent or empty content list it
returns the result object unchanged. -/
theorem C6_call_tool_unwrap (st : ClientState) (name request_id : String)
    (arguments : Json) (json_loads : String → Option Json)
    (hid : request_id ≠ "") :
    (∀ (rfs ffs : JsonObj) (rest : JsonArr) (text : String) (v : Json),
      jlookup rfs "content" = some (.arr (.cons (.obj ffs) rest)) →
      jlookup ffs "text" = some (.str text) →
      json_loads text = some v →
      (call_tool st name arguments request_id
        [some (.obj (.cons "id" (.str request_id) (.cons "result" (.obj rfs) .nil)))]
        json_loads).1 = .ok v) ∧
    (∀ (rfs ffs : JsonObj) (rest : JsonArr) (text : String),
      jlookup rfs "content" = some (.arr (.cons (.obj ffs) rest)) →
      jlookup ffs "text" = some (.str text) →
      json_loads text = none →
      (call_tool st name arguments request_id
        [some (.obj (.cons "id" (.str request_id) (.cons "result" (.obj rfs) .nil)))]
        json_loads).1 = .ok (.str text)) ∧
    (∀ rfs : JsonObj,
      jlookup rfs "content" = none →
      (call_tool st name arguments request_id
        [some (.obj (.cons "id" (.str request_id) (.cons "result" (.obj rfs) .nil)))]
        json_loads).1 = .ok (.obj rfs)) ∧
    (∀ rfs : JsonObj,
      jlookup rfs "content" = some (.arr .nil) →
      (call_tool st name arguments request_id
        [some (.obj (.cons "id" (.str request_id) (.cons "result" (.obj rfs) .nil)))]
        json_loads).1 = .ok (.obj rfs)) := by
  have hreq := fun rfs => request_ok_delivered st "tools/call"
    (some (.obj (.cons "name" (.str name) (.cons "arguments" arguments .nil))))
    request_id (.obj rfs) hid
  refine ⟨?_, ?_, ?_, ?_⟩
  · intro rfs ffs rest text v h1 h2 h3
    simp [call_tool, hreq rfs, h1, h2, h3]
  · intro rfs ffs rest text h1 h2 h3
    simp [call_tool, hreq rfs, h1, h2, h3]
  · intro rfs h1
    simp [call_tool, hreq rfs, h1]
  · intro rfs h1
    simp [call_tool, hreq rfs, h1]

/-- C6 witness: the response
`\x7b"content": [\x7b"text": "\x7b\x5c"x\x5c":1\x7d"\x7d]\x7d` yields the
mapping `\x7b"x": 1\x7d`; `\x7b"content": [\x7b"text": "not json"\x7d]\x7d`
yields the literal string "not json"; a result with no content field is
returned unchanged. -/
theorem C6_witness :
    ("r1" : String) ≠ "" ∧
    (call_tool (mkClient "http://h") "t" (.obj .nil) "r1"
      [some (.obj (.cons "id" (.str "r1") (.cons "result"
        (.obj (.cons "content" (.arr (.cons (.obj (.cons "text" (.str "\x7b\"x\":1\x7d") .nil))
          .nil)) .nil)) .nil)))]
      (fun s => if s = "\x7b\"x\":1\x7d" then some (.obj (.cons "x" (.num 1) .nil)) else none)).1 =
      .ok (.obj (.cons "x" (.num 1) .nil)) ∧
    (call_tool (mkClient "http://h") "t" (.obj .nil) "r1"
      [some (.obj (.cons "id" (.str "r1") (.cons "result"
        (.obj (.cons "content" (.arr (.cons (.obj (.cons "text" (.str "not json") .nil))
          .nil)) .nil)) .nil)))]
      (fun _ => none)).1 = .ok (.str "not json") ∧
    (call_tool (mkClient "http://h") "t" (.obj .nil) "r1"
      [some (.obj (.cons "id" (.str "r1") (.cons "result" (.obj .nil) .nil)))]
      (fun _ => none)).1 = .ok (.obj .nil) := by
  refine ⟨by decide, ?_, ?_, ?_⟩
  · exact (C6_call_tool_unwrap (mkClient "http://h") "t" "r1" (.obj .nil) _
      (by decide)).1 _ _ _ _ _ rfl rfl (by decide)
  · exact (C6_call_tool_unwrap (mkClient "http://h") "t" "r1" (.obj .nil) _
      (by decide)).2.1 _ _ _ _ rfl rfl rfl
  · exact (C6_call_tool_unwrap (mkClient "http://h") "t" "r1" (.obj .nil) _
      (by decide)).2.2.1 _ rfl

/-! ## C9 — non-textual first content element -/

/-- C9, counterexample: for the result `\x7b"content": ["hello"]\x7d` the
first content element carries no string under `text`, yet `call_tool`
does NOT return the result unchanged: `content[0].get("text")` raises
AttributeError on the non-mapping element. -/
theorem C9_counterexample :
    (call_tool (mkClient "http://h") "t" (.obj .nil) "r1"
      [some (.obj (.cons "id" (.str "r1") (.cons "result"
        (.obj (.cons "content" (.arr (.cons (.str "hello") .nil)) .nil)) .nil)))]
      (fun _ => none)).1 = .error .attributeError ∧
    (Except.error PyErr.attributeError : Except PyErr Json) ≠
      .ok (.obj (.cons "content" (.arr (.cons (.str "hello") .nil)) .nil)) := by
  constructor
  · decide
  · decide

/-- C9, amended: when the first element of a non-empty content list is a
MAPPING that does not carry a string under `text`, `call_tool` returns
the entire result object unchanged; when the first element is not a
mapping, `call_tool` raises AttributeError instead. -/
theorem C9_non_textual_first_element (st : ClientState) (name request_id : String)
    (arguments : Json) (json_loads : String → Option Json)
    (hid : request_id ≠ "") :
    (∀ (rfs ffs : JsonObj) (rest : JsonArr),
      jlookup rfs "content" = some (.arr (.cons (.obj ffs) rest)) →
      (∀ s : String, jlookup ffs "text" ≠ some (.str s)) →
      (call_tool st name arguments request_id
        [some (.obj (.cons "id" (.str request_id) (.cons "result" (.obj rfs) .nil)))]
        json_loads).1 = .ok (.obj rfs)) ∧
    (∀ (rfs : JsonObj) (first : Json) (rest : JsonArr),
      jlookup rfs "content" = some (.arr (.cons first rest)) →
      (∀ gfs : JsonObj, first ≠ .obj gfs) →
      (call_tool st name arguments request_id
        [some (.obj (.cons "id" (.str request_id) (.cons "result" (.obj rfs) .nil)))]
        json_loads).1 = .error .attributeError) := by
  have hreq := fun rfs => request_ok_delivered st "tools/call"
    (some (.obj (.cons "name" (.str name) (.cons "arguments" arguments .nil))))
    request_id (.obj rfs) hid
  constructor
  · intro rfs ffs rest h1 h2
    rcases h : jlookup ffs "text" with _ | v
    · simp [call_tool, hreq rfs, h1, h]
    · cases v with
      | str s => exact absurd h (h2 s)
      | null => simp [call_tool, hreq rfs, h1, h]
      | bool b => simp [call_tool, hreq rfs, h1, h]
      | num n => simp [call_tool, hreq rfs, h1, h]
      | arr xs => simp [call_tool, hreq rfs, h1, h]
      | obj gfs => simp [call_tool, hreq rfs, h1, h]
  · intro rfs first rest h1 h2
    cases first with
    | obj gfs => exact absurd rfl (h2 gfs)
    | null => simp [call_tool, hreq rfs, h1]
    | bool b => simp [call_tool, hreq rfs, h1]
    | num n => simp [call_tool, hreq rfs, h1]
    | str s => simp [call_tool, hreq rfs, h1]
    | arr xs => simp [call_tool, hreq rfs, h1]

/-- C9 witness: a first element `\x7b"x": 1\x7d` (a mapping with no
`text`) leaves the result unchanged; a first element `"hello"` (not a
mapping) raises AttributeError. -/
theorem C9_witness :
    (call_tool (mkClient "http://h") "t" (.obj .nil) "r1"
      [some (.obj (.cons "id" (.str "r1") (.cons "result"
        (.obj (.cons "content" (.arr (.cons (.obj (.cons "x" (.num 1) .nil)) .nil)) .nil))
        .nil)))]
      (fun _ => none)).1 =
      .ok (.obj (.cons "content" (.arr (.cons (.obj (.cons "x" (.num 1) .nil)) .nil)) .nil)) ∧
    (call_tool (mkClient "http://h") "t" (.obj .nil) "r1"
      [some (.obj (.cons "id" (.str "r1") (.cons "result"
        (.obj (.cons "content" (.arr (.cons (.num 7) .nil)) .nil)) .nil)))]
      (fun _ => none)).1 = .error .attributeError := by
  constructor
  · exact (C9_non_textual_first_element (mkClient "http://h") "t" "r1" (.obj .nil)
      (fun _ => none) (by decide)).1 _ _ _ rfl (by intro s; simp [jlookup])
  · exact (C9_non_textual_first_element (mkClient "http://h") "t" "r1" (.obj .nil)
      (fun _ => none) (by decide)).2 _ _ _ rfl (by intro gfs; simp)

/-! ## C1 — timeout, and late delivery is retained, not dropped -/

/-- C1, counterexample: after a `request` times out (no matching response
within the wait), a response for that id arriving later is NOT dropped:
`_handle_event` has no not-found branch and stores it into `_responses`,
where it is retained. -/
theorem C1_counterexample :
    (request (mkClient "http://h") "tools/call" none "aaaa" []).1 =
      .error (.timeoutError "Timed out waiting for MCP response to tools/call") ∧
    Except.map (fun st : ClientState => alistLookup st.responses (.str "aaaa"))
      (handle_event (request (mkClient "http://h") "tools/call" none "aaaa" []).2
        (some (.obj (.cons "id" (.str "aaaa") (.cons "result" (.obj .nil) .nil))))) =
      .ok (some (.obj (.cons "id" (.str "aaaa") (.cons "result" (.obj .nil) .nil)))) ∧
    some (Json.obj (.cons "id" (.str "aaaa") (.cons "result" (.obj .nil) .nil))) ≠
      (none : Option Json) := by
  refine ⟨by decide, by decide, by decide⟩

/-- C1, amended: a `request` with no matching response within the timeout
fails with a TimeoutError naming the method and leaves no entry for its
id; a response for that id arriving after the timeout is STORED in the
responses map (retained indefinitely) rather than dropped — but it does
not resurrect the failed call, whose outcome is already the
TimeoutError. -/
theorem C1_timeout_then_late_delivery (st : ClientState) (method : String)
    (params : Option Json) (request_id : String) (events : List (Option Json))
    (late_fs : JsonObj)
    (hafter : alistLookup (run_listener
        (post_message st (mkEnvelope request_id method (orEmptyParams params)))
        events).responses (.str request_id) = none)
    (hurl : ((jlookup late_fs "url").getD .null).truthy = false)
    (hlid : jlookup late_fs "id" = some (.str request_id))
    (hids : request_id ≠ "") :
    (request st method params request_id events).1 =
      .error (.timeoutError ("Timed out waiting for MCP response to " ++ method)) ∧
    alistLookup (request st method params request_id events).2.responses
      (.str request_id) = none ∧
    handle_event (request st method params request_id events).2 (some (.obj late_fs)) =
      .ok { (request st method params request_id events).2 with
              responses := dictInsert (request st method params request_id events).2.responses
                (.str request_id) (.obj late_fs) } ∧
    alistLookup (dictInsert (request st method params request_id events).2.responses
        (.str request_id) (.obj late_fs)) (.str request_id) = some (.obj late_fs) := by
  have hreq : request st method params request_id events =
      (.error (.timeoutError ("Timed out waiting for MCP response to " ++ method)),
       run_listener (post_message st (mkEnvelope request_id method (orEmptyParams params)))
         events) := by
    simp [request, hafter]
  have htr : (Json.str request_id).truthy = true := by
    simp [Json.truthy, hids]
  refine ⟨by simp [hreq], ?_, ?_, alistLookup_dictInsert_self _ _ _⟩
  · simp [hreq, hafter]
  · simp [hreq, handle_event, handle_payload, hurl, hlid, htr]

/-- C1 witness: concrete timed-out call whose late response stays in the
responses map. -/
theorem C1_witness :
    (request (mkClient "http://h") "x" none "aaaa" []).1 =
      .error (.timeoutError ("Timed out waiting for MCP response to " ++ "x")) ∧
    alistLookup (dictInsert (request (mkClient "http://h") "x" none "aaaa" []).2.responses
        (.str "aaaa") (.obj (.cons "id" (.str "aaaa") .nil))) (.str "aaaa") =
      some (.obj (.cons "id" (.str "aaaa") .nil)) := by
  have h := C1_timeout_then_late_delivery (mkClient "http://h") "x" none "aaaa" []
    (.cons "id" (.str "aaaa") .nil) (by decide) (by decide) (by decide) (by decide)
  exact ⟨h.1, h.2.2.2⟩

/-! ## C4 — posting before the endpoint announcement -/

/-- C4, counterexample: the claim says posting before any endpoint
announcement raises an error, but `_post_message` on a freshly
constructed client succeeds and issues the request to the DEFAULT
side-channel path `base_url + "/messages"` (set in `__init__`). -/
theorem C4_counterexample :
    (mkClient "http://host/").messages_url = .str "/messages" ∧
    post_message (mkClient "http://host/") (.obj .nil) =
      { mkClient "http://host/" with sent := [("http://host/messages", .obj .nil)] } := by
  refine ⟨rfl, by decide⟩

/-- C4, amended: `_post_message` never fails locally for an unknown side
channel: it always issues the request to
`base_url + str(messages_url)`, and on a fresh client (no `url` event
received) that is the default `"/messages"` path. -/
theorem C4_post_message_default_path (st : ClientState) (payload : Json) (base : String) :
    (post_message st payload).sent =
      st.sent ++ [(st.base_url ++ pyStrOf st.messages_url, payload)] ∧
    (mkClient base).messages_url = .str "/messages" ∧
    (post_message (mkClient base) payload).sent =
      [(rstripSlashes base ++ "/messages", payload)] := by
  refine ⟨rfl, rfl, ?_⟩
  simp [post_message, mkClient, pyStrOf]

/-! ## State-preservation helpers for C2 and C3 -/


/-- A successful `_handle_event` step never touches `sent`, `initDone` or
`base_url`: it only mutates `_messages_url` and `_responses`. -/
theorem handle_event_preserves (st st1 : ClientState) (e : Option Json)
    (he : handle_event st e = .ok st1) :
    st1.sent = st.sent ∧ st1.initDone = st.initDone ∧ st1.base_url = st.base_url := by
  cases e with
  | none =>
    simp only [handle_event, Except.ok.injEq] at he
    subst he
    exact ⟨rfl, rfl, rfl⟩
  | some p =>
    cases p with
    | obj fields =>
      simp only [handle_event, handle_payload] at he
      split_ifs at he <;>
        (simp only [Except.ok.injEq] at he; subst he; exact ⟨rfl, rfl, rfl⟩)
    | null => simp [handle_event, handle_payload] at he
    | bool b => simp [handle_event, handle_payload] at he
    | num n => simp [handle_event, handle_payload] at he
    | str s => simp [handle_event, handle_payload] at he
    | arr xs => simp [handle_event, handle_payload] at he

/-- The listener loop never touches `sent`, `initDone` or `base_url`. -/
theorem run_listener_preserves (events : List (Option Json)) (st : ClientState) :
    (run_listener st events).sent = st.sent ∧
    (run_listener st events).initDone = st.initDone ∧
    (run_listener st events).base_url = st.base_url := by
  induction events generalizing st with
  | nil => exact ⟨rfl, rfl, rfl⟩
  | cons e rest ih =>
    rcases he : handle_event st e with err | st1
    · simp [run_listener, he]
    · have hst1 := handle_event_preserves st st1 e he
      obtain ⟨h1, h2, h3⟩ := ih st1
      refine ⟨?_, ?_, ?_⟩ <;>
        simp [run_listener, he, h1, h2, h3, hst1.1, hst1.2.1, hst1.2.2]

/-- `request` returns either the post-listening state unchanged (timeout)
or that state with the response entry popped. -/
theorem request_snd_cases (st : ClientState) (method : String) (params : Option Json)
    (request_id : String) (events : List (Option Json)) :
    (request st method params request_id events).2 =
      run_listener (post_message st (mkEnvelope request_id method (orEmptyParams params)))
        events ∨
    (request st method params request_id events).2 =
      { run_listener (post_message st (mkEnvelope request_id method (orEmptyParams params)))
          events with
          responses := dictRemove
            (run_listener (post_message st (mkEnvelope request_id method (orEmptyParams params)))
              events).responses (.str request_id) } := by
  cases hl : alistLookup (run_listener
      (post_message st (mkEnvelope request_id method (orEmptyParams params)))
      events).responses (.str request_id) with
  | none =>
    left
    simp only [request, hl]
  | some resp =>
    right
    cases resp with
    | obj rfs =>
      cases herr : jlookup rfs "error" with
      | none => simp only [request, hl, herr]
      | some ev => cases ev <;> simp only [request, hl, herr]
    | null => simp only [request, hl]
    | bool b => simp only [request, hl]
    | num n => simp only [request, hl]
    | str s => simp only [request, hl]
    | arr xs => simp only [request, hl]

/-- A `request` POSTs exactly one envelope (its own) and never changes
the `_initialized` flag, whatever the delivered events and outcome. -/
theorem request_sent (st : ClientState) (method : String) (params : Option Json)
    (request_id : String) (events : List (Option Json)) :
    (request st method params request_id events).2.sent =
      st.sent ++ [(st.base_url ++ pyStrOf st.messages_url,
        mkEnvelope request_id method (orEmptyParams params))] ∧
    (request st method params request_id events).2.initDone = st.initDone := by
  have hp := run_listener_preserves events
    (post_message st (mkEnvelope request_id method (orEmptyParams params)))
  rcases request_snd_cases st method params request_id events with hc | hc <;>
    rw [hc] <;>
    refine ⟨?_, ?_⟩ <;>
    simp only [hp.1, hp.2.1, hp.2.2] <;>
    simp [post_message]

/-! ## C2 — no local rejection before initialize -/

/-- C2, counterexample: on a freshly constructed client the initialized
flag is unset, yet `call_tool` posts the `tools/call` envelope over the
transport — there is no local rejection. -/
theorem C2_counterexample :
    (mkClient "http://h").initDone = false ∧
    (call_tool (mkClient "http://h") "t" (.obj .nil) "r1" [] (fun _ => none)).2.sent =
      [("http://h/messages",
        mkEnvelope "r1" "tools/call"
          (.obj (.cons "name" (.str "t") (.cons "arguments" (.obj .nil) .nil))))] := by
  exact ⟨rfl, by decide⟩

/-- `call_tool` returns, in every branch, the state produced by its
single `tools/call` request. -/
theorem call_tool_snd (st : ClientState) (name request_id : String) (arguments : Json)
    (events : List (Option Json)) (json_loads : String → Option Json) :
    (call_tool st name arguments request_id events json_loads).2 =
      (request st "tools/call"
        (some (.obj (.cons "name" (.str name) (.cons "arguments" arguments .nil))))
        request_id events).2 := by
  rcases hreq : request st "tools/call"
      (some (.obj (.cons "name" (.str name) (.cons "arguments" arguments .nil))))
      request_id events with ⟨r, st1⟩
  simp only [call_tool, hreq]
  repeat' split
  all_goals simp_all

/-- C2, amended: `call_tool` consults no flag: it always sends exactly
one `tools/call` envelope over the transport, whether or not the client
is initialized, and leaves the initialized flag unchanged.  (The
initialized flag is read only by `list_tools`.) -/
theorem C2_call_tool_posts_unconditionally (st : ClientState) (name request_id : String)
    (arguments : Json) (events : List (Option Json)) (json_loads : String → Option Json) :
    (call_tool st name arguments request_id events json_loads).2.sent =
      st.sent ++ [(st.base_url ++ pyStrOf st.messages_url,
        mkEnvelope request_id "tools/call"
          (.obj (.cons "name" (.str name) (.cons "arguments" arguments .nil))))] ∧
    (call_tool st name arguments request_id events json_loads).2.initDone = st.initDone := by
  have hs := call_tool_snd st name request_id arguments events json_loads
  have hr := request_sent st "tools/call"
    (some (.obj (.cons "name" (.str name) (.cons "arguments" arguments .nil))))
    request_id events
  constructor
  · rw [hs, hr.1]
    simp [orEmptyParams, Json.truthy]
  · rw [hs, hr.2]

/-! ## C3 — initialize-once -/

/-- C3, counterexample: when the first `initialize` request times out,
`_initialized` stays unset and the next `list_tools` call sends
`initialize` AGAIN — so over the client's lifetime the method is sent
twice, refuting "sent at most once regardless of how many times
list_tools is invoked". -/
theorem C3_counterexample :
    countSends
      (list_tools
        (list_tools (mkClient "http://h") "i1" [] "l1" []).2
        "i2" [some (.obj (.cons "id" (.str "i2") (.cons "result" (.obj .nil) .nil)))]
        "l2" [some (.obj (.cons "id" (.str "l2")
          (.cons "result" (.obj (.cons "tools" (.arr .nil) .nil)) .nil)))]).2.sent
      "initialize" = 2 ∧
    ¬ (countSends
      (list_tools
        (list_tools (mkClient "http://h") "i1" [] "l1" []).2
        "i2" [some (.obj (.cons "id" (.str "i2") (.cons "result" (.obj .nil) .nil)))]
        "l2" [some (.obj (.cons "id" (.str "l2")
          (.cons "result" (.obj (.cons "tools" (.arr .nil) .nil)) .nil)))]).2.sent
      "initialize" ≤ 1) := by
  constructor <;> decide

/-- C3, amended: `initialize` is sent at most once AFTER IT FIRST
SUCCEEDS: (i) with the flag set, `list_tools` sends exactly one envelope,
a `tools/list`, and the flag stays set; (ii) a `list_tools` whose
`initialize` request succeeds sets the flag; (iii) a `list_tools` whose
`initialize` request fails propagates the error and leaves the flag
unset, so the next call retries `initialize`. -/
theorem C3_init_sent_once_after_success (st : ClientState) (initId listId : String)
    (initEvents listEvents : List (Option Json)) :
    (st.initDone = true →
      (list_tools st initId initEvents listId listEvents).2.sent =
        st.sent ++ [(st.base_url ++ pyStrOf st.messages_url,
          mkEnvelope listId "tools/list" (.obj .nil))] ∧
      (list_tools st initId initEvents listId listEvents).2.initDone = true) ∧
    (st.initDone = false →
      ∀ r : Json, (request st "initialize" none initId initEvents).1 = .ok r →
        (list_tools st initId initEvents listId listEvents).2.initDone = true) ∧
    (st.initDone = false →
      ∀ e : PyErr, (request st "initialize" none initId initEvents).1 = .error e →
        (list_tools st initId initEvents listId listEvents).1 = .error e ∧
        (list_tools st initId initEvents listId listEvents).2.initDone = false) := by
  refine ⟨?_, ?_, ?_⟩
  · intro hst
    have hi : init_step st initId initEvents = (.ok (), st) := by
      simp [init_step, hst]
    rcases hreq : request st "tools/list" none listId listEvents with ⟨r, st2⟩
    have h2 := request_sent st "tools/list" none listId listEvents
    rw [hreq] at h2
    have h2s : st2.sent = st.sent ++ [(st.base_url ++ pyStrOf st.messages_url,
        mkEnvelope listId "tools/list" (orEmptyParams none))] := by
      simpa using h2.1
    have h2i : st2.initDone = true := by
      have := h2.2
      simp at this
      rw [this, hst]
    cases r with
    | error e =>
      constructor <;> simp [list_tools, hi, hreq, h2s, h2i, orEmptyParams]
    | ok result =>
      cases result <;>
        (constructor <;> simp [list_tools, hi, hreq, h2s, h2i, orEmptyParams])
  · intro hst r hr
    rcases hreq : request st "initialize" none initId initEvents with ⟨ri, st1⟩
    rw [hreq] at hr
    simp only at hr
    subst hr
    have hi : init_step st initId initEvents = (.ok (), { st1 with initDone := true }) := by
      simp [init_step, hst, hreq]
    rcases hreq2 : request { st1 with initDone := true } "tools/list" none listId listEvents
      with ⟨r2, st2⟩
    have h2 := request_sent { st1 with initDone := true } "tools/list" none listId listEvents
    rw [hreq2] at h2
    have h2i : st2.initDone = true := by simpa using h2.2
    cases r2 with
    | error e => simp [list_tools, hi, hreq2, h2i]
    | ok result => cases result <;> simp [list_tools, hi, hreq2, h2i]
  · intro hst e he
    rcases hreq : request st "initialize" none initId initEvents with ⟨ri, st1⟩
    rw [hreq] at he
    simp only at he
    subst he
    have h1 := request_sent st "initialize" none initId initEvents
    rw [hreq] at h1
    have h1i : st1.initDone = false := by
      have := h1.2
      simp at this
      rw [this, hst]
    have hi : init_step st initId initEvents = (.error e, st1) := by
      simp [init_step, hst, hreq]
    constructor <;> simp [list_tools, hi, h1i]

/-- C3 witness: with the flag already set, `list_tools` sends only a
`tools/list` envelope; and a `list_tools` whose `initialize` succeeds
sets the flag. -/
theorem C3_witness :
    ((list_tools { mkClient "http://h" with initDone := true } "i1" [] "l1" []).2.sent =
      ({ mkClient "http://h" with initDone := true } : ClientState).sent ++
        [(({ mkClient "http://h" with initDone := true } : ClientState).base_url ++
            pyStrOf ({ mkClient "http://h" with initDone := true } : ClientState).messages_url,
          mkEnvelope "l1" "tools/list" (.obj .nil))] ∧
     (list_tools { mkClient "http://h" with initDone := true } "i1" [] "l1" []).2.initDone =
       true) ∧
    (list_tools (mkClient "http://h") "i1"
      [some (.obj (.cons "id" (.str "i1") (.cons "result" (.obj .nil) .nil)))]
      "l1" []).2.initDone = true :=
  ⟨(C3_init_sent_once_after_success
      { mkClient "http://h" with initDone := true } "i1" "l1" [] []).1 rfl,
   (C3_init_sent_once_after_success (mkClient "http://h") "i1" "l1"
      [some (.obj (.cons "id" (.str "i1") (.cons "result" (.obj .nil) .nil)))] []).2.1 rfl
     (.obj .nil) (by decide)⟩

/-! ## Registry helper lemmas -/

theorem mem_keys_of_lookup_some [DecidableEq κ] (m : List (κ × α)) (k : κ) (v : α)
    (h : alistLookup m k = some v) : k ∈ alistKeys m := by
  induction m with
  | nil => simp [alistLookup] at h
  | cons hd tl ih =>
    obtain ⟨k1, v1⟩ := hd
    by_cases h1 : k1 = k
    · simp [alistKeys, h1]
    · simp [alistLookup, h1] at h
      simp [alistKeys]
      exact Or.inr (by simpa [alistKeys] using ih h)

theorem lookup_isSome_of_mem_keys [DecidableEq κ] (m : List (κ × α)) (k : κ)
    (h : k ∈ alistKeys m) : (alistLookup m k).isSome = true := by
  induction m with
  | nil => simp [alistKeys] at h
  | cons hd tl ih =>
    obtain ⟨k1, v1⟩ := hd
    by_cases h1 : k1 = k
    · simp [alistLookup, h1]
    · simp [alistKeys, Ne.symm h1] at h
      simp [alistLookup, h1]
      exact ih (by simpa [alistKeys] using h)

theorem self_mem_alistKeys_dictInsert [DecidableEq κ] (m : List (κ × α)) (k : κ) (v : α) :
    k ∈ alistKeys (dictInsert m k v) := by
  by_cases hm : k ∈ alistKeys m
  · rw [alistKeys_dictInsert_of_mem m k v hm]
    exact hm
  · rw [alistKeys_dictInsert_of_not_mem m k v hm]
    simp

theorem register_tools_loop_lookup_not_mem (entries : List (String × PyTool))
    (tsName n : String) :
    ∀ m, n ∉ alistKeys entries →
      alistLookup (register_tools_loop entries tsName m).1 n = alistLookup m n := by
  induction entries with
  | nil => intro m _; rfl
  | cons hd rest ih =>
    obtain ⟨k, v⟩ := hd
    intro m h
    simp [alistKeys] at h
    push_neg at h
    simp only [register_tools_loop]
    rw [ih (dictInsert m k v) (by simpa [alistKeys] using h.2)]
    exact alistLookup_dictInsert_ne m n k v (Ne.symm h.1)

theorem register_tools_loop_lookup_mem (entries : List (String × PyTool))
    (tsName n : String) (t : PyTool) :
    ∀ m, (n, t) ∈ entries → (alistKeys entries).Nodup →
      alistLookup (register_tools_loop entries tsName m).1 n = some t := by
  induction entries with
  | nil => intro m hmem _; simp at hmem
  | cons hd rest ih =>
    obtain ⟨k, v⟩ := hd
    intro m hmem hnd
    simp [alistKeys] at hnd
    rcases List.mem_cons.mp hmem with heq | hmem2
    · simp at heq
      obtain ⟨rfl, rfl⟩ := heq
      simp only [register_tools_loop]
      rw [register_tools_loop_lookup_not_mem rest tsName n (dictInsert m n t)
        (by simpa [alistKeys] using hnd.1)]
      exact alistLookup_dictInsert_self m n t
    · simp only [register_tools_loop]
      exact ih (dictInsert m k v) hmem2 hnd.2

theorem register_tools_loop_key_grow (entries : List (String × PyTool))
    (tsName n : String) :
    ∀ m, n ∈ alistKeys m → n ∈ alistKeys (register_tools_loop entries tsName m).1 := by
  induction entries with
  | nil => intro m h; exact h
  | cons hd rest ih =>
    obtain ⟨k, v⟩ := hd
    intro m h
    simp only [register_tools_loop]
    exact ih (dictInsert m k v) (mem_alistKeys_dictInsert m n k v h)

theorem register_tools_loop_key_of_entry (entries : List (String × PyTool))
    (tsName n : String) :
    ∀ m, n ∈ alistKeys entries → n ∈ alistKeys (register_tools_loop entries tsName m).1 := by
  induction entries with
  | nil => intro m h; simp [alistKeys] at h
  | cons hd rest ih =>
    obtain ⟨k, v⟩ := hd
    intro m h
    simp [alistKeys] at h
    simp only [register_tools_loop]
    rcases h with h | h
    · subst h
      exact register_tools_loop_key_grow rest tsName n (dictInsert m n v)
        (self_mem_alistKeys_dictInsert m n v)
    · exact ih (dictInsert m k v) (by simpa [alistKeys] using h)

theorem register_tools_loop_warns (entries : List (String × PyTool))
    (tsName n : String) (t : PyTool) :
    ∀ m, (n, t) ∈ entries → n ∈ alistKeys m →
      LogEvent.toolCollision n tsName ∈ (register_tools_loop entries tsName m).2 := by
  induction entries with
  | nil => intro m hmem _; simp at hmem
  | cons hd rest ih =>
    obtain ⟨k, v⟩ := hd
    intro m hmem hkey
    rcases List.mem_cons.mp hmem with heq | hmem2
    · simp at heq
      obtain ⟨rfl, rfl⟩ := heq
      simp only [register_tools_loop, lookup_isSome_of_mem_keys m n hkey]
      simp
    · simp only [register_tools_loop]
      refine List.mem_append.mpr (Or.inr ?_)
      exact ih (dictInsert m k v) hmem2 (mem_alistKeys_dictInsert m n k v hkey)

/-! ## C7 — registry override with warning -/

/-- C7: registering two toolsets in order into one fresh registry, both
containing a tool named "get_data" (with unique names within each
lookup), makes `find_tool("get_data")` return the second toolset's tool,
and the second registration logs a collision warning — the overwrite is
observable, never silent. -/
theorem C7_registry_override (ts1 ts2 : Toolset) (t1 t2 : PyTool)
    (h1 : alistLookup ts1.tool_lookup "get_data" = some t1)
    (h2 : ("get_data", t2) ∈ ts2.tool_lookup)
    (hnd2 : (alistKeys ts2.tool_lookup).Nodup) :
    ((ToolsetRegistry.empty.register ts1).1.register ts2).1.find_tool "get_data" = .ok t2 ∧
    LogEvent.toolCollision "get_data" ts2.name ∈
      ((ToolsetRegistry.empty.register ts1).1.register ts2).2 := by
  have hmem1 : "get_data" ∈ alistKeys ts1.tool_lookup :=
    mem_keys_of_lookup_some ts1.tool_lookup "get_data" t1 h1
  have hkey : "get_data" ∈
      alistKeys (register_tools_loop ts1.tool_lookup ts1.name []).1 :=
    register_tools_loop_key_of_entry ts1.tool_lookup ts1.name "get_data" [] hmem1
  constructor
  · simp only [ToolsetRegistry.register, ToolsetRegistry.empty, ToolsetRegistry.find_tool]
    rw [register_tools_loop_lookup_mem ts2.tool_lookup ts2.name "get_data" t2
      (register_tools_loop ts1.tool_lookup ts1.name []).1 h2 hnd2]
  · simp only [ToolsetRegistry.register, ToolsetRegistry.empty]
    refine List.mem_append.mpr (Or.inr ?_)
    exact register_tools_loop_warns ts2.tool_lookup ts2.name "get_data" t2
      (register_tools_loop ts1.tool_lookup ts1.name []).1 h2 hkey

/-- C7 witness: two concrete toolsets both publishing "get_data"; the
second one's tool wins and the collision is logged. -/
theorem C7_witness :
    ((ToolsetRegistry.empty.register
        (mkToolset "alpha" [{ name := some "get_data", tag := 1 }] "")).1.register
        (mkToolset "beta" [{ name := some "get_data", tag := 2 }] "")).1.find_tool
      "get_data" = .ok { name := some "get_data", tag := 2 } ∧
    LogEvent.toolCollision "get_data"
        (mkToolset "beta" [{ name := some "get_data", tag := 2 }] "").name ∈
      ((ToolsetRegistry.empty.register
        (mkToolset "alpha" [{ name := some "get_data", tag := 1 }] "")).1.register
        (mkToolset "beta" [{ name := some "get_data", tag := 2 }] "")).2 :=
  C7_registry_override
    (mkToolset "alpha" [{ name := some "get_data", tag := 1 }] "")
    (mkToolset "beta" [{ name := some "get_data", tag := 2 }] "")
    { name := some "get_data", tag := 1 } { name := some "get_data", tag := 2 }
    (by decide) (by decide) (by decide)

/-! ## C8 — tool-name uniqueness inside a Toolset -/

/-- C8, counterexample: `register_tool` appends to `self.tools` even when
the name already exists, so after registering a second tool named "x" the
toolset's ordered collection of tools contains TWO tools with that name —
only the lookup dict stays unique. -/
theorem C8_counterexample :
    Except.map (fun p : Toolset × List LogEvent =>
        (p.1.tools.filter (fun t => t.name == some "x")).length)
      (Toolset.register_tool (mkToolset "s" [{ name := some "x", tag := 0 }] "")
        { name := some "x", tag := 1 }) = .ok 2 ∧
    ¬ (2 ≤ 1) := by
  constructor <;> decide

theorem rebuild_lookup_nodup_aux (tools : List PyTool) :
    ∀ acc : List (String × PyTool), (alistKeys acc).Nodup →
      (alistKeys (tools.foldl
        (fun acc tool =>
          match tool.name with
          | some n => if n = "" then acc else dictInsert acc n tool
          | none => acc) acc)).Nodup := by
  induction tools with
  | nil => intro acc h; simpa using h
  | cons hd rest ih =>
    intro acc h
    simp only [List.foldl_cons]
    apply ih
    cases hn : hd.name with
    | none => simpa [hn] using h
    | some n =>
      by_cases he : n = ""
      · simpa [hn, he] using h
      · simpa [hn, he] using nodup_alistKeys_dictInsert acc n hd h

/-- `__post_init__` (`_rebuild_lookup`) produces a lookup with unique
keys. -/
theorem rebuild_lookup_nodup (tools : List PyTool) :
    (alistKeys (rebuild_lookup tools)).Nodup :=
  rebuild_lookup_nodup_aux tools [] (by simp [alistKeys])

/-- C8, amended: name uniqueness holds for the `_tool_lookup` dict, not
for the ordered `tools` list: a freshly constructed toolset's lookup has
unique names, `register_tool` preserves that uniqueness, and `get_tool`
resolves a name to the most recently registered tool of that name — but
the `tools` list may retain several tools sharing a name after an
overwrite (see the counterexample). -/
theorem C8_lookup_unique (name description : String) (tools : List PyTool)
    (ts ts1 : Toolset) (tool : PyTool) (n : String) (log : List LogEvent)
    (hnd : (alistKeys ts.tool_lookup).Nodup)
    (hname : tool.name = some n)
    (hreg : ts.register_tool tool = .ok (ts1, log)) :
    (alistKeys (mkToolset name tools description).tool_lookup).Nodup ∧
    (alistKeys ts1.tool_lookup).Nodup ∧
    ts1.get_tool n = .ok tool := by
  simp only [Toolset.register_tool, hname] at hreg
  by_cases he : n = ""
  · simp [he] at hreg
  · simp [he] at hreg
    obtain ⟨hts, hlog⟩ := hreg
    subst hts
    refine ⟨rebuild_lookup_nodup tools, ?_, ?_⟩
    · exact nodup_alistKeys_dictInsert ts.tool_lookup n tool hnd
    · simp [Toolset.get_tool, alistLookup_dictInsert_self]

/-- C8 witness: registering a tool named "x" into an empty toolset keeps
the lookup keys unique and lets `get_tool "x"` resolve it. -/
theorem C8_witness :
    (alistKeys (mkToolset "w" [] "").tool_lookup).Nodup ∧
    (alistKeys (Toolset.mk "s" [PyTool.mk (some "x") 0] ""
        [("x", PyTool.mk (some "x") 0)]).tool_lookup).Nodup ∧
    Toolset.get_tool
      (Toolset.mk "s" [PyTool.mk (some "x") 0] "" [("x", PyTool.mk (some "x") 0)]) "x" =
      .ok (PyTool.mk (some "x") 0) :=
  C8_lookup_unique "w" "" [] (mkToolset "s" [] "")
    (Toolset.mk "s" [PyTool.mk (some "x") 0] "" [("x", PyTool.mk (some "x") 0)])
    (PyTool.mk (some "x") 0) "x" [] (by decide) rfl (by decide)
